import Mathlib

/-!
Verification of the MIDI-to-audio-parameter pipeline of the MIDAI-CONTROL
sampler against its specification.

The development shallowly embeds the core logic of `SamplerDeck`:

* `DeckState` with `triggerNoteOn` / `triggerNoteOff` / `handleCC` /
  `loadStart` / `loadSuccess` / `loadError` / `updateAudioParams` follows the
  final draft of `src/components/SamplerDeck.tsx` (the polyphonic
  `Tone.Sampler` version with smart-chord and sustain-release logic).
* `P0State` with `p0TriggerNoteOn` / `p0HandleCC` follows the first draft in
  `src/unnamed/part_000` (the monophonic `Tone.Player` version, whose CC
  dispatch also covers CC1/CC73/CC72 and a non-linear CC74 curve).
* `handleMIDIMessage` embeds the raw 3-byte MIDI decoder shared by the drafts.
* `playbackRate` embeds the pitch formula of `playSound`.

JavaScript `Set` objects are modelled as duplicate-free lists in insertion
order (`insertNote` / `eraseNote`).  The `Tone` global is assumed present and
its audio context running (the drafts bail out silently otherwise); the notes
currently attacked in the `Tone.Sampler` are tracked in the `sounding` field,
and the single `Tone.Player` voice of the part_000 draft in `playing`
(`MonoVoice` records the note and the playback position, which `start()`
always resets to 0).
-/

namespace Midai

/-- Application status, from the `AppStatus` enum in `types.ts`. -/
inductive AppStatus
  | offline
  | ready
  | loading
  | playing
  | error
deriving DecidableEq, Repr

/-- JS `Set.add` on a set-as-list: appends the element unless present. -/
def insertNote (n : ℕ) (l : List ℕ) : List ℕ :=
  if n ∈ l then l else l ++ [n]

/-- JS `Set.delete` on a set-as-list: removes the element. -/
def eraseNote (n : ℕ) (l : List ℕ) : List ℕ :=
  l.filter (fun m => m ≠ n)

theorem mem_insertNote_self (n : ℕ) (l : List ℕ) : n ∈ insertNote n l := by
  unfold insertNote
  split
  · assumption
  · simp

theorem mem_insertNote_of_mem (n m : ℕ) (l : List ℕ) (h : m ∈ l) :
    m ∈ insertNote n l := by
  unfold insertNote
  split
  · exact h
  · simp [h]

theorem eraseNote_subset (n : ℕ) (l : List ℕ) : eraseNote n l ⊆ l := by
  intro m hm
  exact (List.mem_filter.mp hm).1

theorem not_mem_eraseNote_self (n : ℕ) (l : List ℕ) : n ∉ eraseNote n l := by
  intro h
  simp [eraseNote, List.mem_filter] at h

/-- State of the final `SamplerDeck` draft (`src/components/SamplerDeck.tsx`,
second component definition): React state plus the mutable refs
(`sustainRef`, `sustainedNotesRef`, `samplerRef`).  `loaded` models
`samplerRef.current && samplerRef.current.loaded`; `sounding` models the set
of notes with attacked voices inside the `Tone.Sampler`. -/
structure DeckState where
  status : AppStatus
  loaded : Bool
  sounding : List ℕ
  activeNotes : List ℕ
  isPlaying : Bool
  sustain : Bool
  sustained : List ℕ
  smartChordMode : Bool
  splitPoint : ℕ
  volume : ℚ
  attack : ℚ
  decay : ℚ
  filterFreq : ℚ
deriving DecidableEq, Repr

/-- `initializeAudio`: promotes `OFFLINE` to `READY` (assuming the `Tone`
global is present; the filter-node creation has no observable state here). -/
def initializeAudio (s : DeckState) : DeckState :=
  if s.status = AppStatus.offline then { s with status := AppStatus.ready } else s

/-- `triggerNoteOn` (final draft): always marks the note active and sets
`isPlaying`; if the sampler is loaded it attacks the note, or — in smart-chord
mode below the split point — the root/third/fifth triad, also marking the
chord tones active. -/
def triggerNoteOn (note : ℕ) (s : DeckState) : DeckState :=
  let s0 := if s.status = AppStatus.offline then initializeAudio s else s
  let s1 := { s0 with activeNotes := insertNote note s0.activeNotes, isPlaying := true }
  if s1.loaded then
    if s1.smartChordMode = true ∧ note < s1.splitPoint then
      { s1 with
        sounding := insertNote (note + 7) (insertNote (note + 4) (insertNote note s1.sounding)),
        activeNotes := insertNote (note + 7) (insertNote (note + 4) s1.activeNotes) }
    else
      { s1 with sounding := insertNote note s1.sounding }
  else s1

/-- The `triggerRelease` part of `triggerNoteOff`: if the sampler is loaded,
releases the note's voice (and the triad voices in smart-chord mode below the
split point). -/
def releaseSounding (note : ℕ) (s : DeckState) : DeckState :=
  if s.loaded then
    if s.smartChordMode = true ∧ note < s.splitPoint then
      { s with
        sounding := eraseNote (note + 7) (eraseNote (note + 4) (eraseNote note s.sounding)) }
    else
      { s with sounding := eraseNote note s.sounding }
  else s

/-- The `setActiveNotes` part of `triggerNoteOff`: removes the note (and its
chord tones in smart-chord mode below the split point) from the visual set. -/
def removeActive (note : ℕ) (s : DeckState) : DeckState :=
  if s.smartChordMode = true ∧ note < s.splitPoint then
    { s with
      activeNotes := eraseNote (note + 7) (eraseNote (note + 4) (eraseNote note s.activeNotes)) }
  else
    { s with activeNotes := eraseNote note s.activeNotes }

/-- `triggerNoteOff` (final draft): while the sustain pedal is held the note
is only recorded in the sustained set (the voice keeps sounding); otherwise
the voice is released and the note removed from the visual set.  (The
deferred `setTimeout` update of `isPlaying` is not modelled; no claim
depends on it.) -/
def triggerNoteOff (note : ℕ) (s : DeckState) : DeckState :=
  if s.sustain = true then
    { s with sustained := insertNote note s.sustained }
  else
    removeActive note (releaseSounding note s)

/-- The `sustainedNotesRef.current.forEach(n => triggerNoteOff(n))` loop. -/
def releaseAll (notes : List ℕ) (s : DeckState) : DeckState :=
  notes.foldl (fun acc n => triggerNoteOff n acc) s

/-- `handleCC` (final draft): CC64 sets the hold flag and, when the pedal is
released, replays a synthetic `triggerNoteOff` for every sustained note and
clears the set; CC7 sets volume to `value/127`; CC74 sets the filter cutoff
to `20 + 19980·(value/127)`; everything else is ignored.  The second
component is the list of synthetic note-off calls issued. -/
def handleCC (cc value : ℕ) (s : DeckState) : DeckState × List ℕ :=
  if cc = 64 then
    if value > 63 then ({ s with sustain := true }, [])
    else
      let s1 := { s with sustain := false }
      let s2 := releaseAll s1.sustained s1
      ({ s2 with sustained := [] }, s1.sustained)
  else if cc = 7 then ({ s with volume := (value : ℚ) / 127 }, [])
  else if cc = 74 then ({ s with filterFreq := 20 + 19980 * ((value : ℚ) / 127) }, [])
  else (s, [])

/-- The React state setter for `volume` (no clamping in the source). -/
def setVolume (v : ℚ) (s : DeckState) : DeckState := { s with volume := v }

/-- The React state setter for `filterFreq` (no clamping in the source). -/
def setFilterFreq (v : ℚ) (s : DeckState) : DeckState := { s with filterFreq := v }

/-- The cutoff actually passed to `filterRef.current.frequency.rampTo` by
`updateAudioParams`: `Math.max(20, Math.min(20000, filterFreq))`. -/
def appliedFilterFreq (s : DeckState) : ℚ :=
  max 20 (min 20000 s.filterFreq)

/-- The decibel value assigned to `volume.value` by `updateAudioParams`:
`volume <= 0.01 ? -Infinity : 20 * Math.log10(volume)`.  `none` models the
`-Infinity` silence sentinel, assigned directly without any log arithmetic. -/
noncomputable def volumeToDb (v : ℚ) : Option ℝ :=
  if v ≤ 1 / 100 then none else some (20 * Real.logb 10 (v : ℝ))

/-- The synchronous prefix of `loadSample` (final draft): status goes to
`LOADING`, playback indicator off, and the *old* sampler is released and
disposed before the new one is even created. -/
def loadStart (s : DeckState) : DeckState :=
  let s0 := initializeAudio s
  { s0 with
    status := AppStatus.loading, isPlaying := false, loaded := false, sounding := [] }

/-- The `onload` callback of `loadSample`: the new sampler becomes the active
one and the status goes to `READY`. -/
def loadSuccess (s : DeckState) : DeckState :=
  { s with status := AppStatus.ready, loaded := true }

/-- The `onerror` callback of `loadSample`: only the status (and file label)
change; the sampler ref stays as the synchronous prefix left it. -/
def loadError (s : DeckState) : DeckState :=
  { s with status := AppStatus.error }

/-- `playbackRate` formula of `playSound` / the part_000 `triggerNoteOn`:
`Math.pow(2, (note - 60) / 12)` with the fixed root note 60. -/
noncomputable def playbackRate (note : ℤ) : ℝ :=
  (2 : ℝ) ^ (((note : ℝ) - 60) / 12)

/-- Semantic MIDI events produced by the 3-byte decoder. -/
inductive MidiEvent
  | noteOn (note velocity : ℕ)
  | noteOff (note : ℕ)
  | controlChange (controller value : ℕ)
deriving DecidableEq, Repr

/-- `handleMIDIMessage` (final draft): `cmd = status & 0xF0`; 144 with
positive velocity is note-on, 128 or 144-with-zero-velocity is note-off, 176
is control change, anything else is dropped. -/
def handleMIDIMessage (statusByte data1 data2 : ℕ) : Option MidiEvent :=
  let cmd := statusByte &&& 0xF0
  if cmd = 144 ∧ data2 > 0 then some (MidiEvent.noteOn data1 data2)
  else if cmd = 128 ∨ (cmd = 144 ∧ data2 = 0) then some (MidiEvent.noteOff data1)
  else if cmd = 176 then some (MidiEvent.controlChange data1 data2)
  else none

/-- One playback instance of the monophonic `Tone.Player` (part_000 first
draft): the triggered note and the playback position, which `start()` always
resets to 0. -/
structure MonoVoice where
  note : ℕ
  pos : ℚ
deriving DecidableEq, Repr

/-- State of the first `SamplerDeck` draft in `src/unnamed/part_000`:
monophonic `Tone.Player` (`playing = none` models the `stopped` state),
plus the parameters touched by its richer `handleCC` dispatch. -/
structure P0State where
  status : AppStatus
  loaded : Bool
  playing : Option MonoVoice
  isPlaying : Bool
  activeNotes : List ℕ
  sustain : Bool
  sustained : List ℕ
  volume : ℚ
  attack : ℚ
  decay : ℚ
  filterFreq : ℚ
  filterQ : ℚ
deriving DecidableEq, Repr

/-- `initializeAudio` of the part_000 draft. -/
def p0InitializeAudio (s : P0State) : P0State :=
  if s.status = AppStatus.offline then { s with status := AppStatus.ready } else s

/-- `triggerNoteOn` of the part_000 draft: marks the note active and, if the
player is loaded, sets the playback rate for the note, stops the player if it
is already started, and starts it from position 0.  The second component is
the list of voices stopped by the retrigger. -/
def p0TriggerNoteOn (note : ℕ) (s : P0State) : P0State × List MonoVoice :=
  let s0 := if s.status = AppStatus.offline then p0InitializeAudio s else s
  let s1 := { s0 with activeNotes := insertNote note s0.activeNotes }
  if s1.loaded then
    ({ s1 with playing := some ⟨note, 0⟩, isPlaying := true }, s1.playing.toList)
  else (s1, [])

/-- Playback time passing: the started voice advances its position. -/
def p0Advance (t : ℚ) (s : P0State) : P0State :=
  { s with playing := s.playing.map (fun v => ⟨v.note, v.pos + t⟩) }

/-- The voices currently sounding in the part_000 draft (zero or one). -/
def p0Voices (s : P0State) : List MonoVoice :=
  s.playing.toList

/-- `handleCC` of the part_000 draft: CC64 sustain (releasing the pedal
clears the sustained set and stops the player if no note is held), CC1 mod
wheel to filter resonance, CC7 volume, CC74 non-linear cutoff
`20 + 19980·(value/127)²`, CC73 attack and CC72 decay both `(value/127)·2`,
everything else ignored. -/
def p0HandleCC (cc value : ℕ) (s : P0State) : P0State :=
  let norm : ℚ := (value : ℚ) / 127
  if cc = 64 then
    if value > 63 then { s with sustain := true }
    else
      let s1 := { s with sustain := false, sustained := [] }
      if s1.activeNotes = [] ∧ s1.loaded = true then
        { s1 with playing := none, isPlaying := false }
      else s1
  else if cc = 1 then { s with filterQ := norm * 20 }
  else if cc = 7 then { s with volume := norm }
  else if cc = 74 then { s with filterFreq := 20 + 19980 * (norm * norm) }
  else if cc = 73 then { s with attack := norm * 2 }
  else if cc = 72 then { s with decay := norm * 2 }
  else s

theorem releaseSounding_loaded (note : ℕ) (s : DeckState) :
    (releaseSounding note s).loaded = s.loaded := by
  unfold releaseSounding
  split
  · split <;> rfl
  · rfl

theorem releaseSounding_sustain (note : ℕ) (s : DeckState) :
    (releaseSounding note s).sustain = s.sustain := by
  unfold releaseSounding
  split
  · split <;> rfl
  · rfl

theorem releaseSounding_sounding_subset (note : ℕ) (s : DeckState) :
    (releaseSounding note s).sounding ⊆ s.sounding := by
  unfold releaseSounding
  split
  · split
    · exact fun m hm => eraseNote_subset _ _ (eraseNote_subset _ _ (eraseNote_subset _ _ hm))
    · exact eraseNote_subset _ _
  · exact fun m hm => hm

theorem not_mem_releaseSounding (note : ℕ) (s : DeckState) (h : s.loaded = true) :
    note ∉ (releaseSounding note s).sounding := by
  unfold releaseSounding
  rw [h]
  simp only [if_pos]
  split
  · intro hmem
    exact not_mem_eraseNote_self note s.sounding
      (eraseNote_subset _ _ (eraseNote_subset _ _ hmem))
  · exact not_mem_eraseNote_self note s.sounding

theorem removeActive_loaded (note : ℕ) (s : DeckState) :
    (removeActive note s).loaded = s.loaded := by
  unfold removeActive
  split <;> rfl

theorem removeActive_sustain (note : ℕ) (s : DeckState) :
    (removeActive note s).sustain = s.sustain := by
  unfold removeActive
  split <;> rfl

theorem removeActive_sounding (note : ℕ) (s : DeckState) :
    (removeActive note s).sounding = s.sounding := by
  unfold removeActive
  split <;> rfl

theorem triggerNoteOff_loaded (note : ℕ) (s : DeckState) :
    (triggerNoteOff note s).loaded = s.loaded := by
  unfold triggerNoteOff
  split
  · rfl
  · rw [removeActive_loaded, releaseSounding_loaded]

theorem triggerNoteOff_sustain (note : ℕ) (s : DeckState) :
    (triggerNoteOff note s).sustain = s.sustain := by
  unfold triggerNoteOff
  split
  · rfl
  · rw [removeActive_sustain, releaseSounding_sustain]

theorem triggerNoteOff_sounding_subset (note : ℕ) (s : DeckState) :
    (triggerNoteOff note s).sounding ⊆ s.sounding := by
  unfold triggerNoteOff
  split
  · exact fun m hm => hm
  · rw [removeActive_sounding]
    exact releaseSounding_sounding_subset note s

theorem not_mem_triggerNoteOff (note : ℕ) (s : DeckState)
    (hsus : s.sustain = false) (hl : s.loaded = true) :
    note ∉ (triggerNoteOff note s).sounding := by
  unfold triggerNoteOff
  rw [hsus]
  simp only [Bool.false_eq_true, if_false]
  rw [removeActive_sounding]
  exact not_mem_releaseSounding note s hl

theorem releaseAll_loaded (notes : List ℕ) (s : DeckState) :
    (releaseAll notes s).loaded = s.loaded := by
  induction notes generalizing s with
  | nil => rfl
  | cons a rest ih =>
      show (releaseAll rest (triggerNoteOff a s)).loaded = s.loaded
      rw [ih, triggerNoteOff_loaded]

theorem releaseAll_sustain (notes : List ℕ) (s : DeckState) :
    (releaseAll notes s).sustain = s.sustain := by
  induction notes generalizing s with
  | nil => rfl
  | cons a rest ih =>
      show (releaseAll rest (triggerNoteOff a s)).sustain = s.sustain
      rw [ih, triggerNoteOff_sustain]

theorem releaseAll_sounding_subset (notes : List ℕ) (s : DeckState) :
    (releaseAll notes s).sounding ⊆ s.sounding := by
  induction notes generalizing s with
  | nil => exact fun m hm => hm
  | cons a rest ih =>
      intro m hm
      exact triggerNoteOff_sounding_subset a s (ih (triggerNoteOff a s) hm)

theorem not_mem_releaseAll (notes : List ℕ) (s : DeckState)
    (hsus : s.sustain = false) (hl : s.loaded = true) :
    ∀ m ∈ notes, m ∉ (releaseAll notes s).sounding := by
  induction notes generalizing s with
  | nil => intro m hm; cases hm
  | cons a rest ih =>
      intro m hm
      show m ∉ (releaseAll rest (triggerNoteOff a s)).sounding
      rcases List.mem_cons.mp hm with h | h
      · subst h
        intro hmem
        exact not_mem_triggerNoteOff m s hsus hl
          (releaseAll_sounding_subset rest (triggerNoteOff m s) hmem)
      · exact ih (triggerNoteOff a s)
          ((triggerNoteOff_sustain a s).trans hsus)
          ((triggerNoteOff_loaded a s).trans hl) m h

theorem triggerNoteOn_chord (note : ℕ) (s : DeckState)
    (hc : s.smartChordMode = true) (hl : s.loaded = true) (hn : note < s.splitPoint) :
    (triggerNoteOn note s).activeNotes =
      insertNote (note + 7) (insertNote (note + 4) (insertNote note s.activeNotes)) ∧
    (triggerNoteOn note s).sounding =
      insertNote (note + 7) (insertNote (note + 4) (insertNote note s.sounding)) ∧
    (triggerNoteOn note s).isPlaying = true := by
  by_cases h : s.status = AppStatus.offline <;>
    simp [triggerNoteOn, initializeAudio, h, hl, hc, hn]

theorem triggerNoteOn_single (note : ℕ) (s : DeckState)
    (hl : s.loaded = true) (hn : ¬(s.smartChordMode = true ∧ note < s.splitPoint)) :
    (triggerNoteOn note s).activeNotes = insertNote note s.activeNotes ∧
    (triggerNoteOn note s).sounding = insertNote note s.sounding ∧
    (triggerNoteOn note s).isPlaying = true := by
  by_cases h : s.status = AppStatus.offline <;>
    simp [triggerNoteOn, initializeAudio, h, hl, hn]

theorem triggerNoteOn_notLoaded (note : ℕ) (s : DeckState) (hl : s.loaded = false) :
    (triggerNoteOn note s).sounding = s.sounding ∧
    (triggerNoteOn note s).activeNotes = insertNote note s.activeNotes ∧
    (triggerNoteOn note s).isPlaying = true := by
  by_cases h : s.status = AppStatus.offline <;>
    simp [triggerNoteOn, initializeAudio, h, hl]

/-- C1: while sustain hold is engaged (CC64 value>63) a `noteOff(n)` defers
the actual stop — the sounding voices are untouched and `n` is added to the
sustained set — and on the transition from hold engaged to hold released
(CC64 value≤63) every note in the deferred sustained set receives exactly one
synthetic NoteOff (the emitted note-off trace lists each sustained note once)
that actually stops its voice (the note no longer sounds), after which the
sustained set is empty. -/
theorem c1_sustain_hold_release (s : DeckState) (n v : ℕ)
    (hs : s.sustain = true) (hl : s.loaded = true)
    (hnd : s.sustained.Nodup) (hv : v ≤ 63) :
    ((triggerNoteOff n s).sounding = s.sounding ∧
      (triggerNoteOff n s).sustained = insertNote n s.sustained ∧
      n ∈ (triggerNoteOff n s).sustained) ∧
    ((handleCC 64 v s).1.sustained = [] ∧
      (handleCC 64 v s).2 = s.sustained ∧
      (∀ m ∈ s.sustained, (handleCC 64 v s).2.count m = 1) ∧
      ∀ m ∈ s.sustained, m ∉ (handleCC 64 v s).1.sounding) := by
  have hoff : triggerNoteOff n s = { s with sustained := insertNote n s.sustained } := by
    unfold triggerNoteOff
    rw [if_pos hs]
  have hcc : handleCC 64 v s =
      ({ releaseAll s.sustained { s with sustain := false } with sustained := [] },
        s.sustained) := by
    unfold handleCC
    rw [if_pos rfl, if_neg (by omega)]
  refine ⟨⟨?_, ?_, ?_⟩, ?_, ?_, ?_, ?_⟩
  · rw [hoff]
  · rw [hoff]
  · rw [hoff]
    exact mem_insertNote_self n s.sustained
  · rw [hcc]
  · rw [hcc]
  · intro m hm
    rw [hcc]
    exact List.count_eq_one_of_mem hnd hm
  · intro m hm
    rw [hcc]
    exact not_mem_releaseAll s.sustained { s with sustain := false } rfl hl m hm

/-- Concrete deck state for the C1 witness: sustain pedal held, sampler
loaded, notes 64 and 40 deferred by earlier note-offs while still sounding. -/
def c1State : DeckState :=
  { status := AppStatus.ready, loaded := true, sounding := [64, 40],
    activeNotes := [64, 40], isPlaying := true, sustain := true,
    sustained := [64, 40], smartChordMode := false, splitPoint := 60,
    volume := 4 / 5, attack := 1 / 100, decay := 1 / 2, filterFreq := 20000 }

theorem c1_sustain_hold_release_witness :
    (c1State.sustain = true ∧ c1State.loaded = true ∧
      c1State.sustained.Nodup ∧ (0 : ℕ) ≤ 63) ∧
    ((triggerNoteOff 50 c1State).sounding = c1State.sounding ∧
      (triggerNoteOff 50 c1State).sustained = insertNote 50 c1State.sustained ∧
      50 ∈ (triggerNoteOff 50 c1State).sustained) ∧
    ((handleCC 64 0 c1State).1.sustained = [] ∧
      (handleCC 64 0 c1State).2 = c1State.sustained ∧
      (∀ m ∈ c1State.sustained, (handleCC 64 0 c1State).2.count m = 1) ∧
      ∀ m ∈ c1State.sustained, m ∉ (handleCC 64 0 c1State).1.sounding) :=
  ⟨⟨rfl, rfl, by decide, by decide⟩,
    c1_sustain_hold_release c1State 50 0 rfl rfl (by decide) (by decide)⟩

/-- C2: in the monophonic draft, two NoteOns with no intervening NoteOff
leave at most one sounding voice — the one for the second note, started at
position 0 — and the old voice (wherever its playback had advanced to) is
stopped by the retrigger.  Taking `n₂ = n₁` gives the same-note retrigger:
the old voice is stopped immediately and playback restarts at position 0. -/
theorem c2_monophonic (s : P0State) (n₁ n₂ : ℕ) (t : ℚ) (h : s.loaded = true) :
    (p0TriggerNoteOn n₂ (p0Advance t (p0TriggerNoteOn n₁ s).1)).1.playing =
      some ⟨n₂, 0⟩ ∧
    p0Voices (p0TriggerNoteOn n₂ (p0Advance t (p0TriggerNoteOn n₁ s).1)).1 =
      [⟨n₂, 0⟩] ∧
    (p0Voices (p0TriggerNoteOn n₂ (p0Advance t (p0TriggerNoteOn n₁ s).1)).1).length ≤ 1 ∧
    (p0TriggerNoteOn n₂ (p0Advance t (p0TriggerNoteOn n₁ s).1)).2 = [⟨n₁, t⟩] := by
  by_cases hoff : s.status = AppStatus.offline <;>
    simp [p0TriggerNoteOn, p0InitializeAudio, p0Advance, p0Voices, h, hoff]

/-- Concrete mono-player state for the C2 witness: sample loaded, idle. -/
def c2State : P0State :=
  { status := AppStatus.ready, loaded := true, playing := none, isPlaying := false,
    activeNotes := [], sustain := false, sustained := [], volume := 4 / 5,
    attack := 1 / 100, decay := 1 / 10, filterFreq := 20000, filterQ := 0 }

theorem c2_monophonic_witness :
    c2State.loaded = true ∧
    ((p0TriggerNoteOn 67 (p0Advance 1 (p0TriggerNoteOn 64 c2State).1)).1.playing =
        some ⟨67, 0⟩ ∧
      p0Voices (p0TriggerNoteOn 67 (p0Advance 1 (p0TriggerNoteOn 64 c2State).1)).1 =
        [⟨67, 0⟩] ∧
      (p0Voices (p0TriggerNoteOn 67 (p0Advance 1 (p0TriggerNoteOn 64 c2State).1)).1).length
        ≤ 1 ∧
      (p0TriggerNoteOn 67 (p0Advance 1 (p0TriggerNoteOn 64 c2State).1)).2 = [⟨64, 1⟩]) :=
  ⟨rfl, c2_monophonic c2State 64 67 1 rfl⟩

/-- C3: with chord mode enabled, a NoteOn below the split point triggers and
marks the triad {n, n+4, n+7} (all three end up in the active-note set and in
the set of attacked sampler voices); a NoteOn at or above the split point
(here 72 with splitPoint 60, from an empty active set) marks and triggers
only the single note. -/
theorem c3_chord_split :
    (∀ (s : DeckState) (n : ℕ), s.smartChordMode = true → s.loaded = true →
      n < s.splitPoint →
      (n ∈ (triggerNoteOn n s).activeNotes ∧ n + 4 ∈ (triggerNoteOn n s).activeNotes ∧
        n + 7 ∈ (triggerNoteOn n s).activeNotes) ∧
      (n ∈ (triggerNoteOn n s).sounding ∧ n + 4 ∈ (triggerNoteOn n s).sounding ∧
        n + 7 ∈ (triggerNoteOn n s).sounding)) ∧
    (∀ s : DeckState, s.splitPoint = 60 → s.loaded = true → s.activeNotes = [] →
      (triggerNoteOn 72 s).activeNotes = [72] ∧
      (triggerNoteOn 72 s).sounding = insertNote 72 s.sounding) := by
  constructor
  · intro s n hc hl hn
    obtain ⟨ha, hsnd, _⟩ := triggerNoteOn_chord n s hc hl hn
    rw [ha, hsnd]
    exact ⟨⟨mem_insertNote_of_mem _ _ _ (mem_insertNote_of_mem _ _ _
            (mem_insertNote_self _ _)),
          mem_insertNote_of_mem _ _ _ (mem_insertNote_self _ _),
          mem_insertNote_self _ _⟩,
        mem_insertNote_of_mem _ _ _ (mem_insertNote_of_mem _ _ _
            (mem_insertNote_self _ _)),
          mem_insertNote_of_mem _ _ _ (mem_insertNote_self _ _),
          mem_insertNote_self _ _⟩
  · intro s hsp hl hempty
    have hno : ¬(s.smartChordMode = true ∧ 72 < s.splitPoint) := by
      rintro ⟨_, hlt⟩
      omega
    obtain ⟨ha, hsnd, _⟩ := triggerNoteOn_single 72 s hl hno
    rw [ha, hsnd, hempty]
    exact ⟨rfl, rfl⟩

/-- Concrete deck state for the C3 witness: chord mode on, split point 60,
sample loaded, nothing sounding yet. -/
def c3State : DeckState :=
  { status := AppStatus.ready, loaded := true, sounding := [], activeNotes := [],
    isPlaying := false, sustain := false, sustained := [], smartChordMode := true,
    splitPoint := 60, volume := 4 / 5, attack := 1 / 100, decay := 1 / 2,
    filterFreq := 20000 }

/-- Concrete deck state for the C3 witness, upper zone: chord mode off. -/
def c3StateHigh : DeckState :=
  { c3State with smartChordMode := false }

theorem c3_chord_split_witness :
    (c3State.smartChordMode = true ∧ c3State.loaded = true ∧ 48 < c3State.splitPoint ∧
      (48 ∈ (triggerNoteOn 48 c3State).activeNotes ∧
        52 ∈ (triggerNoteOn 48 c3State).activeNotes ∧
        55 ∈ (triggerNoteOn 48 c3State).activeNotes)) ∧
    (c3StateHigh.splitPoint = 60 ∧ c3StateHigh.loaded = true ∧
      c3StateHigh.activeNotes = [] ∧
      (triggerNoteOn 72 c3StateHigh).activeNotes = [72]) :=
  ⟨⟨rfl, rfl, by decide,
      by
        have h := (c3_chord_split.1 c3State 48 rfl rfl (by decide)).1
        exact ⟨h.1, h.2.1, h.2.2⟩⟩,
    rfl, rfl, rfl, (c3_chord_split.2 c3StateHigh rfl rfl rfl).1⟩

set_option maxRecDepth 4096 in
theorem land240 : ∀ s < 256, s &&& 240 = s / 16 * 16 := by decide

/-- C4: the raw 3-byte decoder dispatches a status byte with high nibble 0x9
and positive data2 as NoteOn(data1), high nibble 0x8 — or 0x9 with data2 = 0 —
as NoteOff(data1), and high nibble 0xB as ControlChange(data1, data2). -/
theorem c4_midi_decode (st d1 d2 : ℕ) (hst : st < 256) :
    (st / 16 = 9 → 0 < d2 → handleMIDIMessage st d1 d2 = some (MidiEvent.noteOn d1 d2)) ∧
    (st / 16 = 8 ∨ (st / 16 = 9 ∧ d2 = 0) →
      handleMIDIMessage st d1 d2 = some (MidiEvent.noteOff d1)) ∧
    (st / 16 = 11 → handleMIDIMessage st d1 d2 = some (MidiEvent.controlChange d1 d2)) := by
  have h240 : st &&& 240 = st / 16 * 16 := land240 st hst
  refine ⟨?_, ?_, ?_⟩
  · intro h9 hd2
    have hcmd : st &&& 240 = 144 := by rw [h240, h9]
    simp [handleMIDIMessage, hcmd, hd2]
  · rintro (h8 | ⟨h9, hd0⟩)
    · have hcmd : st &&& 240 = 128 := by rw [h240, h8]
      simp [handleMIDIMessage, hcmd]
    · have hcmd : st &&& 240 = 144 := by rw [h240, h9]
      simp [handleMIDIMessage, hcmd, hd0]
  · intro h11
    have hcmd : st &&& 240 = 176 := by rw [h240, h11]
    simp [handleMIDIMessage, hcmd]

theorem c4_midi_decode_witness :
    ((147 : ℕ) < 256 ∧ handleMIDIMessage 147 60 100 = some (MidiEvent.noteOn 60 100)) ∧
    ((131 : ℕ) < 256 ∧ handleMIDIMessage 131 60 0 = some (MidiEvent.noteOff 60)) ∧
    ((147 : ℕ) < 256 ∧ handleMIDIMessage 147 60 0 = some (MidiEvent.noteOff 60)) ∧
    ((178 : ℕ) < 256 ∧ handleMIDIMessage 178 64 127 =
      some (MidiEvent.controlChange 64 127)) :=
  ⟨⟨by decide, (c4_midi_decode 147 60 100 (by decide)).1 (by decide) (by decide)⟩,
    ⟨by decide, (c4_midi_decode 131 60 0 (by decide)).2.1 (Or.inl (by decide))⟩,
    ⟨by decide, (c4_midi_decode 147 60 0 (by decide)).2.1 (Or.inr ⟨by decide, rfl⟩)⟩,
    ⟨by decide, (c4_midi_decode 178 64 127 (by decide)).2.2 (by decide)⟩⟩

/-- C5: the playback rate applied when triggering note n with root note 60 is
2^((n−60)/12); in particular the rate for note 60 is exactly 1 (and for note
72 exactly 2). -/
theorem c5_playback_rate :
    playbackRate 60 = 1 ∧ playbackRate 72 = 2 ∧
    ∀ n : ℤ, playbackRate n = (2 : ℝ) ^ (((n : ℝ) - 60) / 12) := by
  refine ⟨?_, ?_, fun n => rfl⟩
  · show (2 : ℝ) ^ ((((60 : ℤ) : ℝ) - 60) / 12) = 1
    rw [show (((60 : ℤ) : ℝ) - 60) / 12 = 0 by norm_num, Real.rpow_zero]
  · show (2 : ℝ) ^ ((((72 : ℤ) : ℝ) - 60) / 12) = 2
    rw [show (((72 : ℤ) : ℝ) - 60) / 12 = 1 by norm_num, Real.rpow_one]

/-- Deck state with the initial parameter values of the final draft, sample
loaded and idle; used by several concrete instances below. -/
def ccState : DeckState :=
  { status := AppStatus.ready, loaded := true, sounding := [], activeNotes := [],
    isPlaying := false, sustain := false, sustained := [], smartChordMode := false,
    splitPoint := 60, volume := 4 / 5, attack := 1 / 100, decay := 1 / 2,
    filterFreq := 20000 }

/-- part_000 state with that draft's initial parameter values. -/
def p0CCState : P0State :=
  { status := AppStatus.ready, loaded := true, playing := none, isPlaying := false,
    activeNotes := [], sustain := false, sustained := [], volume := 4 / 5,
    attack := 1 / 100, decay := 1 / 10, filterFreq := 20000, filterQ := 0 }

/-- C6 counterexample: in the final draft's `handleCC`, a CC73 message with
value 127 — which the claim says sets attack (scaled into the 0–2 s range,
hence to 2) — is ignored: the attack stays at its initial 0.01, which is not
2. -/
theorem c6_counterexample :
    (handleCC 73 127 ccState).1.attack = 1 / 100 ∧ ((1 : ℚ) / 100) ≠ 2 := by
  exact ⟨rfl, by norm_num⟩

/-- C6 amended: the final draft's dispatch handles CC64 (hold iff value>63),
CC7 (volume = value/127) and CC74 (cutoff = 20 + 19980·(value/127)) and
ignores every other controller — including CC1, CC73 and CC72 — without error;
the CC73→attack and CC72→decay mappings into the 0–2 s range exist only in
the part_000 draft, whose CC74 curve is the non-linear
20 + 19980·(value/127)², and which also ignores unknown controllers. -/
theorem c6_cc_dispatch (cc value : ℕ) (s : DeckState) (p : P0State)
    (h64 : cc ≠ 64) (h7 : cc ≠ 7) (h74 : cc ≠ 74) :
    ((handleCC 64 value s).1.sustain = true ↔ 63 < value) ∧
    (handleCC 7 value s).1.volume = (value : ℚ) / 127 ∧
    (handleCC 74 value s).1.filterFreq = 20 + 19980 * ((value : ℚ) / 127) ∧
    (handleCC cc value s).1 = s ∧ (handleCC cc value s).2 = [] ∧
    (p0HandleCC 73 value p).attack = (value : ℚ) / 127 * 2 ∧
    (p0HandleCC 72 value p).decay = (value : ℚ) / 127 * 2 ∧
    (p0HandleCC 74 value p).filterFreq =
      20 + 19980 * ((value : ℚ) / 127 * ((value : ℚ) / 127)) ∧
    (cc ≠ 1 → cc ≠ 73 → cc ≠ 72 → p0HandleCC cc value p = p) := by
  refine ⟨?_, ?_, ?_, ?_, ?_, ?_, ?_, ?_, ?_⟩
  · by_cases hv : 63 < value
    · have hs : (handleCC 64 value s).1.sustain = true := by
        unfold handleCC
        rw [if_pos rfl, if_pos hv]
      rw [hs]
      simp [hv]
    · have hs : (handleCC 64 value s).1.sustain = false := by
        unfold handleCC
        rw [if_pos rfl, if_neg hv]
        exact releaseAll_sustain s.sustained { s with sustain := false }
      rw [hs]
      simp [hv]
  · simp [handleCC]
  · simp [handleCC]
  · simp [handleCC, h64, h7, h74]
  · simp [handleCC, h64, h7, h74]
  · simp [p0HandleCC]
  · simp [p0HandleCC]
  · simp [p0HandleCC]
  · intro h1 h73 h72
    simp [p0HandleCC, h64, h1, h7, h74, h73, h72]

theorem c6_cc_dispatch_witness :
    ((99 : ℕ) ≠ 64 ∧ (99 : ℕ) ≠ 7 ∧ (99 : ℕ) ≠ 74 ∧
      (73 : ℕ) ≠ 64 ∧ (73 : ℕ) ≠ 7 ∧ (73 : ℕ) ≠ 74 ∧
      (72 : ℕ) ≠ 64 ∧ (72 : ℕ) ≠ 7 ∧ (72 : ℕ) ≠ 74 ∧
      (1 : ℕ) ≠ 64 ∧ (1 : ℕ) ≠ 7 ∧ (1 : ℕ) ≠ 74) ∧
    (((handleCC 64 64 ccState).1.sustain = true ↔ 63 < 64) ∧
      (handleCC 7 64 ccState).1.volume = (64 : ℚ) / 127 ∧
      (handleCC 74 64 ccState).1.filterFreq = 20 + 19980 * ((64 : ℚ) / 127) ∧
      (handleCC 99 64 ccState).1 = ccState ∧ (handleCC 99 64 ccState).2 = [] ∧
      (handleCC 73 64 ccState).1 = ccState ∧
      (handleCC 72 64 ccState).1 = ccState ∧
      (handleCC 1 64 ccState).1 = ccState ∧
      (p0HandleCC 73 64 p0CCState).attack = (64 : ℚ) / 127 * 2 ∧
      (p0HandleCC 72 64 p0CCState).decay = (64 : ℚ) / 127 * 2 ∧
      (p0HandleCC 74 64 p0CCState).filterFreq =
        20 + 19980 * ((64 : ℚ) / 127 * ((64 : ℚ) / 127)) ∧
      p0HandleCC 99 64 p0CCState = p0CCState) := by
  have h99 := c6_cc_dispatch 99 64 ccState p0CCState (by decide) (by decide) (by decide)
  have h73 := c6_cc_dispatch 73 64 ccState p0CCState (by decide) (by decide) (by decide)
  have h72 := c6_cc_dispatch 72 64 ccState p0CCState (by decide) (by decide) (by decide)
  have h1 := c6_cc_dispatch 1 64 ccState p0CCState (by decide) (by decide) (by decide)
  exact ⟨⟨by decide, by decide, by decide, by decide, by decide, by decide,
      by decide, by decide, by decide, by decide, by decide, by decide⟩,
    h99.1, h99.2.1, h99.2.2.1, h99.2.2.2.1, h99.2.2.2.2.1,
    h73.2.2.2.1, h72.2.2.2.1, h1.2.2.2.1,
    h99.2.2.2.2.2.1, h99.2.2.2.2.2.2.1, h99.2.2.2.2.2.2.2.1,
    h99.2.2.2.2.2.2.2.2 (by decide) (by decide) (by decide)⟩

/-- C7 counterexample: `setVolume(-5)` stores −5 (not the domain minimum 0)
and `setFilterCutoff(999999)` stores 999999 (not 20000): the stored values
are not clamped by the setters. -/
theorem c7_counterexample :
    (setVolume (-5) ccState).volume = -5 ∧ ((-5 : ℚ) ≠ 0) ∧
    (setFilterFreq 999999 ccState).filterFreq = 999999 ∧
    ((999999 : ℚ) ≠ 20000) := by
  refine ⟨rfl, by norm_num, rfl, by norm_num⟩

/-- C7 amended: the setters store the raw value unclamped; clamping happens
when the value is applied to the audio nodes: the cutoff passed to the filter
node is always within [20, 20000] — in particular `setFilterCutoff(999999)`
is applied as 20000 while 999999 stays stored — and `setVolume(-5)` stores −5,
which is applied as the silence sentinel (the ≤ 0.01 floor), not as a finite
dB value. -/
theorem c7_clamp_applied (v : ℚ) (s : DeckState) :
    20 ≤ appliedFilterFreq (setFilterFreq v s) ∧
    appliedFilterFreq (setFilterFreq v s) ≤ 20000 ∧
    appliedFilterFreq (setFilterFreq 999999 s) = 20000 ∧
    (setFilterFreq v s).filterFreq = v ∧
    (setVolume (-5) s).volume = -5 ∧ volumeToDb (-5) = none := by
  refine ⟨le_max_left _ _, ?_, ?_, rfl, rfl, ?_⟩
  · show max 20 (min 20000 v) ≤ 20000
    exact max_le (by norm_num) (min_le_left _ _)
  · show max 20 (min 20000 (999999 : ℚ)) = 20000
    norm_num
  · unfold volumeToDb
    rw [if_pos (by norm_num)]

/-- C8: the applied volume uses a logarithmic gain scale with a floor: any
volume ≤ 0.01 is applied as the −∞ silence sentinel directly (no logarithm is
evaluated, avoiding −∞ arithmetic), and any volume > 0.01 is applied as
20·log10(v) decibels. -/
theorem c8_volume_db (v : ℚ) :
    (v ≤ 1 / 100 → volumeToDb v = none) ∧
    (1 / 100 < v → volumeToDb v = some (20 * Real.logb 10 (v : ℝ))) := by
  constructor
  · intro h
    unfold volumeToDb
    rw [if_pos h]
  · intro h
    unfold volumeToDb
    rw [if_neg (not_le.mpr h)]

theorem c8_volume_db_witness :
    ((1 : ℚ) / 100 ≤ 1 / 100 ∧ volumeToDb (1 / 100) = none) ∧
    ((1 : ℚ) / 100 < 1 ∧ volumeToDb 1 = some (20 * Real.logb 10 ((1 : ℚ) : ℝ))) :=
  ⟨⟨le_refl _, (c8_volume_db (1 / 100)).1 (le_refl _)⟩,
    ⟨(div_lt_one (by decide)).mpr (by decide),
      (c8_volume_db 1).2 ((div_lt_one (by decide)).mpr (by decide))⟩⟩

/-- C9 counterexample: with a sample loaded and ready, starting a new load
and then failing leaves no playable sample: the old sampler was released and
disposed when the load began, so after the failure a NoteOn starts no voice.
This contradicts the claim that the previous sample stays loaded and playable
after a failed load. -/
theorem c9_counterexample :
    ccState.loaded = true ∧
    (loadError (loadStart ccState)).status = AppStatus.error ∧
    (loadError (loadStart ccState)).loaded = false ∧
    (triggerNoteOn 60 (loadError (loadStart ccState))).sounding = [] := by
  decide

/-- C9 amended: after a failed load the status indicator is `ERROR` and the
engine is silent (no sounding voices, and any NoteOn starts none), but the
previously loaded sample does not stay playable: it is already stopped and
disposed by the synchronous prefix of `loadSample`, before the fetch/decode
can fail. -/
theorem c9_load_failure (s : DeckState) :
    (loadError (loadStart s)).status = AppStatus.error ∧
    (loadError (loadStart s)).sounding = [] ∧
    (loadError (loadStart s)).loaded = false ∧
    (loadError (loadStart s)).isPlaying = false ∧
    ∀ n : ℕ, (triggerNoteOn n (loadError (loadStart s))).sounding = [] := by
  refine ⟨rfl, rfl, rfl, rfl, fun n => ?_⟩
  have h := (triggerNoteOn_notLoaded n (loadError (loadStart s)) rfl).1
  rw [h]
  rfl

/-- C10: a NoteOn while no sample is loaded (including while a load is in
flight) starts no audio, yet the note is still added to the active-note set
and `isPlaying` is set to true, so the visual and the audible state diverge. -/
theorem c10_silent_noteOn (s : DeckState) (n : ℕ) (h : s.loaded = false) :
    (triggerNoteOn n s).sounding = s.sounding ∧
    n ∈ (triggerNoteOn n s).activeNotes ∧
    (triggerNoteOn n s).isPlaying = true := by
  obtain ⟨h1, h2, h3⟩ := triggerNoteOn_notLoaded n s h
  refine ⟨h1, ?_, h3⟩
  rw [h2]
  exact mem_insertNote_self n s.activeNotes

/-- Deck state with a load in flight (sampler disposed, nothing loaded). -/
def c10State : DeckState :=
  { ccState with status := AppStatus.loading, loaded := false }

theorem c10_silent_noteOn_witness :
    c10State.loaded = false ∧
    ((triggerNoteOn 64 c10State).sounding = c10State.sounding ∧
      64 ∈ (triggerNoteOn 64 c10State).activeNotes ∧
      (triggerNoteOn 64 c10State).isPlaying = true) :=
  ⟨rfl, c10_silent_noteOn c10State 64 rfl⟩

end Midai
